import Mathlib

/-!
Verification development for the treadsbot repository.

The usage-quota logic (`src/services/usage.py`) and the per-profile
context-window logic (`src/database/models.py`) are embedded as pure
Lean functions; the text-handling pipeline (`src/handlers/user.py`,
`handle_text`) is embedded as a state transformer parametrised by the
outcome of the external model call.  Calendar dates are day ordinals
(`Nat`), ordered as dates are.
-/

namespace Threads

/-- Configuration (`src/config.py`): the parsed `ADMIN_IDS` list and
`DAILY_FREE_LIMIT` (default 5). -/
structure Settings where
  admin_ids_list : List Int
  DAILY_FREE_LIMIT : Nat
deriving DecidableEq

/-- Row of the `users` table (`src/database/models.py`): identity,
pro flag, daily counter and its date.  `requests_today` is a
non-negative counter (only ever set to 0 or incremented). -/
structure User where
  telegram_id : Int
  is_pro : Bool
  requests_today : Nat
  last_request_date : Nat
deriving DecidableEq

/-- Embeds `check_and_track_usage` (src/services/usage.py lines 61-89)
after the user row has been resolved: admin bypass, day rollover,
pro bypass, free-tier check.  Returns the admit decision and the
mutated row. -/
def check_and_track_usage (s : Settings) (today : Nat) (u : User) :
    Bool × User :=
  if u.telegram_id ∈ s.admin_ids_list then
    -- Admins always bypass limits
    (true, { u with requests_today := u.requests_today + 1,
                    last_request_date := today })
  else
    -- Reset counter on a new calendar day
    let u1 := if u.last_request_date < today then
        { u with requests_today := 0, last_request_date := today }
      else u
    -- Pro users bypass limits
    if u1.is_pro then
      (true, { u1 with requests_today := u1.requests_today + 1 })
    -- Free-tier check
    else if u1.requests_today < s.DAILY_FREE_LIMIT then
      (true, { u1 with requests_today := u1.requests_today + 1 })
    -- Limit reached
    else
      (false, u1)

/-- Lookup in the `users` table by the unique `telegram_id` column. -/
def findUser (db : List User) (tid : Int) : Option User :=
  db.find? (fun u => u.telegram_id == tid)

/-- Embeds `get_or_create_user` (src/services/usage.py lines 22-43):
return the existing row, or insert and commit a fresh one with
defaults `is_pro = false`, `requests_today = 0`,
`last_request_date = today`. -/
def get_or_create_user (db : List User) (today : Nat) (tid : Int) :
    User × List User :=
  match findUser db tid with
  | some u => (u, db)
  | none =>
      let u : User :=
        { telegram_id := tid, is_pro := false, requests_today := 0,
          last_request_date := today }
      (u, db ++ [u])

/-- Embeds `get_remaining_requests` (src/services/usage.py lines
92-109): resolve (or lazily create) the row, compute used-today, and
report `(is_pro, remaining)` together with the resulting table state. -/
def get_remaining_requests (s : Settings) (db : List User) (today : Nat)
    (tid : Int) : (Bool × Int) × List User :=
  let r := get_or_create_user db today tid
  let u := r.1
  let used : Nat := if today ≤ u.last_request_date then u.requests_today else 0
  if u.is_pro then ((true, -1), r.2)
  else ((false, max ((s.DAILY_FREE_LIMIT : Int) - (used : Int)) 0), r.2)

/-- State after `n` consecutive `check_and_track_usage` calls on the
same day, starting from `u`. -/
def iterateUsage (s : Settings) (today : Nat) (u : User) : Nat → User
  | 0 => u
  | n + 1 => (check_and_track_usage s today (iterateUsage s today u n)).2

/-- One entry of a profile's conversation history: a Python dict
`{"role": ..., "content": ...}`. -/
structure CtxEntry where
  role : String
  content : String
deriving DecidableEq

/-- The serialized `context_json` text column, abstracted at the JSON
boundary: `emptyText` is the falsy `""` (handled by `or "[]"`),
`json_of l` is a JSON text that `json.loads` parses to the entry list
`l`, and `malformed` is any text on which `json.loads` raises
`JSONDecodeError`.  Serialization (`json.dumps`) always yields
well-formed text, so it lands in `json_of`. -/
inductive StoredCtx where
  | emptyText : StoredCtx
  | json_of (entries : List CtxEntry) : StoredCtx
  | malformed : StoredCtx
deriving DecidableEq

/-- Row of the `threads_profiles` table (`src/database/models.py`). -/
structure ThreadsProfile where
  profile_name : String
  system_prompt : String
  context_json : StoredCtx
deriving DecidableEq

/-- `MAX_CONTEXT_MESSAGES = 10` pairs (user+assistant = 2 entries each). -/
def ThreadsProfile.MAX_CONTEXT_MESSAGES : Nat := 10

/-- Embeds `ThreadsProfile.get_context` (src/database/models.py lines
74-79): deserialize the stored context; the empty string falls back to
`"[]"`, and a `JSONDecodeError` yields the empty list. -/
def ThreadsProfile.get_context (p : ThreadsProfile) : List CtxEntry :=
  match p.context_json with
  | StoredCtx.emptyText => []
  | StoredCtx.json_of entries => entries
  | StoredCtx.malformed => []

/-- Embeds `ThreadsProfile.add_to_context` (src/database/models.py lines
81-90): append a user/assistant pair, keep the last
`MAX_CONTEXT_MESSAGES * 2` entries (`ctx[-max_entries:]`, i.e. drop
from the front), and re-serialize. -/
def ThreadsProfile.add_to_context (p : ThreadsProfile)
    (user_msg assistant_msg : String) : ThreadsProfile :=
  let ctx := p.get_context
  let ctx := ctx ++ [{ role := "user", content := user_msg },
                     { role := "assistant", content := assistant_msg }]
  let max_entries := ThreadsProfile.MAX_CONTEXT_MESSAGES * 2
  let ctx := if ctx.length > max_entries then
      ctx.drop (ctx.length - max_entries)
    else ctx
  { p with context_json := StoredCtx.json_of ctx }

/-- Embeds `ThreadsProfile.clear_context` (src/database/models.py lines
92-94): reset `context_json` to `"[]"`. -/
def ThreadsProfile.clear_context (p : ThreadsProfile) : ThreadsProfile :=
  { p with context_json := StoredCtx.json_of [] }

/-- A freshly created profile: `context_json` defaults to `"[]"`. -/
def emptyProfile (name style : String) : ThreadsProfile :=
  { profile_name := name, system_prompt := style,
    context_json := StoredCtx.json_of [] }

/-- Sequentially apply `add_to_context` for each (topic, reply) pair. -/
def appendExchanges (p : ThreadsProfile) :
    List (String × String) → ThreadsProfile
  | [] => p
  | e :: rest => appendExchanges (p.add_to_context e.1 e.2) rest

/-- Flatten (topic, reply) pairs into role-tagged entries, user first. -/
def entriesOfPairs : List (String × String) → List CtxEntry
  | [] => []
  | e :: rest =>
      { role := "user", content := e.1 } ::
      { role := "assistant", content := e.2 } :: entriesOfPairs rest

/-- The last `k` elements of a list (Python `l[-k:]`, whole list when
`k ≥ length`). -/
def lastK (k : Nat) (l : List α) : List α := l.drop (l.length - k)

/-- Decides that a history strictly alternates a user-role entry then an
assistant-role entry, starting with user (hence even length). -/
def rolePaired : List CtxEntry → Bool
  | [] => true
  | [_] => false
  | u :: a :: rest =>
      (u.role == "user") && (a.role == "assistant") && rolePaired rest

/-- Models Python `str.strip()`: remove leading and trailing
whitespace (defined over the character list so it is
kernel-computable). -/
def pyStrip (t : String) : String :=
  String.mk (((t.data.dropWhile Char.isWhitespace).reverse.dropWhile
    Char.isWhitespace).reverse)

/-- Outcome of one `handle_text` invocation, as observed by the user. -/
inductive HandleOutcome where
  | emptyTopic : HandleOutcome
  | limitDenied : HandleOutcome
  | noActiveProfile : HandleOutcome
  | generationFailed : HandleOutcome
  | emptyReply : HandleOutcome
  | replied (text : String) : HandleOutcome
deriving DecidableEq

/-- Embeds the state-relevant pipeline of `handle_text`
(src/handlers/user.py lines 504-594): strip the topic, run the quota
check (which commits its increment before the model is called), resolve
the active profile, invoke the model (`modelReply` stands for the
`generate_thread` call: `Except.error` models a raised exception), and
only on a successful non-empty reply append the exchange to the
profile's context.  `stripMd` stands for the regex-based
`strip_markdown`, irrelevant to state except for the stored reply
text. -/
def handle_text (s : Settings) (today : Nat) (stripMd : String → String)
    (u : User) (activeProfile : Option ThreadsProfile) (rawText : String)
    (modelReply : Except Unit String) :
    User × Option ThreadsProfile × HandleOutcome :=
  let topic := pyStrip rawText
  if topic = "" then (u, activeProfile, HandleOutcome.emptyTopic)
  else
    let checked := check_and_track_usage s today u
    if checked.1 = false then
      (checked.2, activeProfile, HandleOutcome.limitDenied)
    else
      match activeProfile with
      | none => (checked.2, none, HandleOutcome.noActiveProfile)
      | some profile =>
          match modelReply with
          | Except.error _ =>
              (checked.2, some profile, HandleOutcome.generationFailed)
          | Except.ok t =>
              if t = "" then
                (checked.2, some profile, HandleOutcome.emptyReply)
              else
                let thread_text := stripMd t
                (checked.2,
                 some (profile.add_to_context topic thread_text),
                 HandleOutcome.replied thread_text)

/-! ### Branch equations for `check_and_track_usage` -/

theorem check_admin (s : Settings) (today : Nat) (u : User)
    (h : u.telegram_id ∈ s.admin_ids_list) :
    check_and_track_usage s today u =
      (true, { u with requests_today := u.requests_today + 1,
                      last_request_date := today }) := by
  simp [check_and_track_usage, h]

theorem check_noreset_pro (s : Settings) (today : Nat) (u : User)
    (hadmin : u.telegram_id ∉ s.admin_ids_list)
    (hnl : ¬ u.last_request_date < today) (hpro : u.is_pro = true) :
    check_and_track_usage s today u =
      (true, { u with requests_today := u.requests_today + 1 }) := by
  simp [check_and_track_usage, hadmin, hnl, hpro]

theorem check_noreset_free_allowed (s : Settings) (today : Nat) (u : User)
    (hadmin : u.telegram_id ∉ s.admin_ids_list)
    (hnl : ¬ u.last_request_date < today) (hpro : u.is_pro = false)
    (hlt : u.requests_today < s.DAILY_FREE_LIMIT) :
    check_and_track_usage s today u =
      (true, { u with requests_today := u.requests_today + 1 }) := by
  simp [check_and_track_usage, hadmin, hnl, hpro, hlt]

theorem check_noreset_denied (s : Settings) (today : Nat) (u : User)
    (hadmin : u.telegram_id ∉ s.admin_ids_list)
    (hnl : ¬ u.last_request_date < today) (hpro : u.is_pro = false)
    (hge : ¬ u.requests_today < s.DAILY_FREE_LIMIT) :
    check_and_track_usage s today u = (false, u) := by
  simp [check_and_track_usage, hadmin, hnl, hpro, hge]

theorem check_rollover_pro (s : Settings) (today : Nat) (u : User)
    (hadmin : u.telegram_id ∉ s.admin_ids_list)
    (hstale : u.last_request_date < today) (hpro : u.is_pro = true) :
    check_and_track_usage s today u =
      (true, { u with requests_today := 1, last_request_date := today }) := by
  simp [check_and_track_usage, hadmin, hstale, hpro]

theorem check_rollover_free (s : Settings) (today : Nat) (u : User)
    (hadmin : u.telegram_id ∉ s.admin_ids_list)
    (hstale : u.last_request_date < today) (hpro : u.is_pro = false)
    (hlim : 0 < s.DAILY_FREE_LIMIT) :
    check_and_track_usage s today u =
      (true, { u with requests_today := 1, last_request_date := today }) := by
  simp [check_and_track_usage, hadmin, hstale, hpro, hlim]

theorem check_rollover_denied0 (s : Settings) (today : Nat) (u : User)
    (hadmin : u.telegram_id ∉ s.admin_ids_list)
    (hstale : u.last_request_date < today) (hpro : u.is_pro = false)
    (hlim0 : ¬ 0 < s.DAILY_FREE_LIMIT) :
    check_and_track_usage s today u =
      (false, { u with requests_today := 0, last_request_date := today }) := by
  simp [check_and_track_usage, hadmin, hstale, hpro, hlim0]

theorem check_rollover_eq (s : Settings) (today : Nat) (u : User)
    (hadmin : u.telegram_id ∉ s.admin_ids_list)
    (hstale : u.last_request_date < today)
    (hlim : 0 < s.DAILY_FREE_LIMIT) :
    check_and_track_usage s today u =
      (true, { u with requests_today := 1, last_request_date := today }) := by
  by_cases hp : u.is_pro = true
  · exact check_rollover_pro s today u hadmin hstale hp
  · exact check_rollover_free s today u hadmin hstale
      (Bool.eq_false_iff.mpr hp) hlim

theorem iterateUsage_free_fields (s : Settings) (today : Nat) (u : User)
    (hadmin : u.telegram_id ∉ s.admin_ids_list) (hpro : u.is_pro = false)
    (hdate : u.last_request_date = today) (hfresh : u.requests_today = 0) :
    ∀ i, i ≤ s.DAILY_FREE_LIMIT →
      iterateUsage s today u i = { u with requests_today := i } := by
  intro i
  induction i with
  | zero =>
      intro _
      cases u
      simp_all [iterateUsage]
  | succ n ih =>
      intro hi
      have hv := ih (Nat.le_of_succ_le hi)
      have hlt : n < s.DAILY_FREE_LIMIT := hi
      have hnl : ¬ ({ u with requests_today := n } : User).last_request_date
          < today := by
        simp [hdate]
      simp only [iterateUsage, hv]
      rw [check_noreset_free_allowed s today { u with requests_today := n }
        hadmin hnl hpro hlt]

theorem iterateUsage_pro_fields (s : Settings) (today : Nat) (u : User)
    (hadmin : u.telegram_id ∉ s.admin_ids_list) (hpro : u.is_pro = true)
    (hdate : u.last_request_date = today) :
    ∀ n, iterateUsage s today u n =
      { u with requests_today := u.requests_today + n } := by
  intro n
  induction n with
  | zero =>
      cases u
      simp [iterateUsage]
  | succ n ih =>
      have hnl : ¬ ({ u with requests_today := u.requests_today + n } :
          User).last_request_date < today := by
        simp [hdate]
      simp only [iterateUsage, ih]
      rw [check_noreset_pro s today
        { u with requests_today := u.requests_today + n } hadmin hnl hpro]
      rfl

theorem admitted_counter_increment (s : Settings) (today : Nat) (u : User)
    (h : (check_and_track_usage s today u).1 = true) :
    (check_and_track_usage s today u).2.requests_today = u.requests_today + 1 ∨
    (check_and_track_usage s today u).2.requests_today = 1 := by
  by_cases ha : u.telegram_id ∈ s.admin_ids_list
  · left
    rw [check_admin s today u ha]
  · by_cases hd : u.last_request_date < today
    · by_cases hp : u.is_pro = true
      · right
        rw [check_rollover_pro s today u ha hd hp]
      · have hp' : u.is_pro = false := Bool.eq_false_iff.mpr hp
        by_cases hl : 0 < s.DAILY_FREE_LIMIT
        · right
          rw [check_rollover_free s today u ha hd hp' hl]
        · rw [check_rollover_denied0 s today u ha hd hp' hl] at h
          simp at h
    · by_cases hp : u.is_pro = true
      · left
        rw [check_noreset_pro s today u ha hd hp]
      · have hp' : u.is_pro = false := Bool.eq_false_iff.mpr hp
        by_cases hl : u.requests_today < s.DAILY_FREE_LIMIT
        · left
          rw [check_noreset_free_allowed s today u ha hd hp' hl]
        · rw [check_noreset_denied s today u ha hd hp' hl] at h
          simp at h

/-! ### Claims on the Quota Tracker -/

/-- C1: for a non-pro, non-privileged user starting fresh today
(`last_request_date = today`, counter 0), every one of the first
`DAILY_FREE_LIMIT` `check_and_track_usage` calls returns true and raises
`requests_today` by exactly one (to `i + 1` after call `i + 1`), and the
`(DAILY_FREE_LIMIT + 1)`-th call returns false leaving the user row —
counter and date — completely unchanged. -/
theorem C1_free_tier_cap (s : Settings) (today : Nat) (u : User)
    (hadmin : u.telegram_id ∉ s.admin_ids_list) (hpro : u.is_pro = false)
    (hdate : u.last_request_date = today) (hfresh : u.requests_today = 0) :
    (∀ i, i < s.DAILY_FREE_LIMIT →
        (check_and_track_usage s today (iterateUsage s today u i)).1 = true ∧
        (iterateUsage s today u (i + 1)).requests_today = i + 1) ∧
    (check_and_track_usage s today
        (iterateUsage s today u s.DAILY_FREE_LIMIT)).1 = false ∧
    (check_and_track_usage s today
        (iterateUsage s today u s.DAILY_FREE_LIMIT)).2 =
      iterateUsage s today u s.DAILY_FREE_LIMIT := by
  have hfields := iterateUsage_free_fields s today u hadmin hpro hdate hfresh
  have hnl : ∀ n : Nat, ¬ ({ u with requests_today := n } : User).last_request_date
      < today := by
    intro n
    simp [hdate]
  refine ⟨?_, ?_, ?_⟩
  · intro i hi
    constructor
    · rw [hfields i (Nat.le_of_lt hi),
        check_noreset_free_allowed s today { u with requests_today := i }
          hadmin (hnl i) hpro hi]
    · rw [hfields (i + 1) hi]
  · rw [hfields s.DAILY_FREE_LIMIT (Nat.le_refl _),
      check_noreset_denied s today
        { u with requests_today := s.DAILY_FREE_LIMIT } hadmin
        (hnl s.DAILY_FREE_LIMIT) hpro (Nat.lt_irrefl _)]
  · rw [hfields s.DAILY_FREE_LIMIT (Nat.le_refl _),
      check_noreset_denied s today
        { u with requests_today := s.DAILY_FREE_LIMIT } hadmin
        (hnl s.DAILY_FREE_LIMIT) hpro (Nat.lt_irrefl _)]

/-- Witness for C1: a concrete free user (id 1, fresh today) with the
default limit 5 and no admins configured. -/
theorem C1_free_tier_cap_witness :
    (∀ i, i < (Settings.mk [] 5).DAILY_FREE_LIMIT →
        (check_and_track_usage (Settings.mk [] 5) 0
          (iterateUsage (Settings.mk [] 5) 0 (User.mk 1 false 0 0) i)).1
            = true ∧
        (iterateUsage (Settings.mk [] 5) 0 (User.mk 1 false 0 0)
          (i + 1)).requests_today = i + 1) ∧
    (check_and_track_usage (Settings.mk [] 5) 0
        (iterateUsage (Settings.mk [] 5) 0 (User.mk 1 false 0 0)
          (Settings.mk [] 5).DAILY_FREE_LIMIT)).1 = false ∧
    (check_and_track_usage (Settings.mk [] 5) 0
        (iterateUsage (Settings.mk [] 5) 0 (User.mk 1 false 0 0)
          (Settings.mk [] 5).DAILY_FREE_LIMIT)).2 =
      iterateUsage (Settings.mk [] 5) 0 (User.mk 1 false 0 0)
        (Settings.mk [] 5).DAILY_FREE_LIMIT :=
  C1_free_tier_cap (Settings.mk [] 5) 0 (User.mk 1 false 0 0)
    (by decide) rfl rfl rfl

/-- C2: for a non-privileged user with a stale date
(`last_request_date < today`) and any positive counter, the next
`check_and_track_usage` call (with a positive configured limit, default
5) resets before the limit check: it returns true and leaves
`requests_today = 1` and `last_request_date = today`. -/
theorem C2_day_rollover (s : Settings) (today : Nat) (u : User)
    (hadmin : u.telegram_id ∉ s.admin_ids_list)
    (hstale : u.last_request_date < today)
    (hk : 0 < u.requests_today)
    (hlim : 0 < s.DAILY_FREE_LIMIT) :
    (check_and_track_usage s today u).1 = true ∧
    (check_and_track_usage s today u).2.requests_today = 1 ∧
    (check_and_track_usage s today u).2.last_request_date = today := by
  rw [check_rollover_eq s today u hadmin hstale hlim]
  exact ⟨rfl, rfl, rfl⟩

/-- Witness for C2: a concrete free user with yesterday's date and
counter 3; the rollover call admits and leaves the counter at 1. -/
theorem C2_day_rollover_witness :
    (check_and_track_usage (Settings.mk [] 5) 1 (User.mk 1 false 3 0)).1
        = true ∧
    (check_and_track_usage (Settings.mk [] 5) 1
        (User.mk 1 false 3 0)).2.requests_today = 1 ∧
    (check_and_track_usage (Settings.mk [] 5) 1
        (User.mk 1 false 3 0)).2.last_request_date = 1 :=
  C2_day_rollover (Settings.mk [] 5) 1 (User.mk 1 false 3 0)
    (by decide) (by decide) (by decide) (by decide)

/-- C5: for an identity on the admin list, `check_and_track_usage`
returns true irrespective of the counter and the pro flag, increments
`requests_today` by one and stamps `last_request_date := today`, with no
rollover reset — hence the counter strictly increases on every call,
whatever `today` is. -/
theorem C5_admin_bypass (s : Settings) (today : Nat) (u : User)
    (h : u.telegram_id ∈ s.admin_ids_list) :
    check_and_track_usage s today u =
      (true, { u with requests_today := u.requests_today + 1,
                      last_request_date := today }) ∧
    u.requests_today < (check_and_track_usage s today u).2.requests_today := by
  have e := check_admin s today u h
  refine ⟨e, ?_⟩
  rw [e]
  exact Nat.lt_succ_self _

/-- Witness for C5: admin id 42, already at counter 99 on day 3, pro
flag set, admitted again on day 7 with counter 100 and no reset. -/
theorem C5_admin_bypass_witness :
    check_and_track_usage (Settings.mk [42] 5) 7 (User.mk 42 true 99 3) =
      (true, User.mk 42 true 100 7) ∧
    (User.mk 42 true 99 3).requests_today <
      (check_and_track_usage (Settings.mk [42] 5) 7
        (User.mk 42 true 99 3)).2.requests_today :=
  C5_admin_bypass (Settings.mk [42] 5) 7 (User.mk 42 true 99 3) (by decide)

/-- C6: a pro, non-privileged user on the current day is admitted by
every `check_and_track_usage` call (in particular by any
`DAILY_FREE_LIMIT + 50` consecutive ones), each call incrementing the
counter by one, and `get_remaining_requests` reports
`(is_pro, remaining) = (true, -1)` without touching the row. -/
theorem C6_pro_unlimited (s : Settings) (today : Nat) (u : User)
    (hadmin : u.telegram_id ∉ s.admin_ids_list) (hpro : u.is_pro = true)
    (hdate : u.last_request_date = today) :
    (∀ n,
      (check_and_track_usage s today (iterateUsage s today u n)).1 = true ∧
      (iterateUsage s today u (n + 1)).requests_today =
        (iterateUsage s today u n).requests_today + 1) ∧
    get_remaining_requests s [u] today u.telegram_id = ((true, -1), [u]) := by
  have hfields := iterateUsage_pro_fields s today u hadmin hpro hdate
  have hnl : ∀ n : Nat,
      ¬ ({ u with requests_today := n } : User).last_request_date < today := by
    intro n
    simp [hdate]
  constructor
  · intro n
    constructor
    · rw [hfields n,
        check_noreset_pro s today { u with requests_today := u.requests_today + n }
          hadmin (hnl _) hpro]
    · rw [hfields n, hfields (n + 1)]
      rfl
  · simp [get_remaining_requests, get_or_create_user, findUser, hpro]

/-- Witness for C6: a concrete pro user (id 2, counter 57 ≥ limit + 50
already consumed today) is still admitted and status reports
`(true, -1)`. -/
theorem C6_pro_unlimited_witness :
    (∀ n,
      (check_and_track_usage (Settings.mk [] 5) 4
        (iterateUsage (Settings.mk [] 5) 4 (User.mk 2 true 57 4) n)).1
          = true ∧
      (iterateUsage (Settings.mk [] 5) 4 (User.mk 2 true 57 4)
          (n + 1)).requests_today =
        (iterateUsage (Settings.mk [] 5) 4 (User.mk 2 true 57 4)
          n).requests_today + 1) ∧
    get_remaining_requests (Settings.mk [] 5) [User.mk 2 true 57 4] 4
        (User.mk 2 true 57 4).telegram_id = ((true, -1), [User.mk 2 true 57 4]) :=
  C6_pro_unlimited (Settings.mk [] 5) 4 (User.mk 2 true 57 4)
    (by decide) rfl rfl

/-- C9 counterexample: `get_remaining_requests` is not mutation-free for
every identity — on a table with no row for identity 7 it creates and
persists a fresh row, so the resulting table differs from the input
table. -/
theorem C9_creates_row_counterexample :
    (get_remaining_requests (Settings.mk [] 5) [] 0 7).2 ≠ ([] : List User) := by
  decide

/-- C9 (amended): for every identity that already has a row,
`get_remaining_requests` leaves the table exactly as it was — in
particular it never resets a stale counter and never changes
`last_request_date` — and reports used-today as `requests_today` when
the stored date is current (else 0), with
`remaining = max(DAILY_FREE_LIMIT - used, 0)` for free users and the
`-1` sentinel for pro users. -/
theorem C9_status_readonly (s : Settings) (db : List User) (today : Nat)
    (tid : Int) (u : User) (hfind : findUser db tid = some u) :
    (get_remaining_requests s db today tid).2 = db ∧
    (get_remaining_requests s db today tid).1 =
      (if u.is_pro then (true, -1)
       else (false,
         max ((s.DAILY_FREE_LIMIT : Int) -
           ((if today ≤ u.last_request_date then u.requests_today else 0 : Nat) :
             Int)) 0)) := by
  by_cases hp : u.is_pro = true
  · simp [get_remaining_requests, get_or_create_user, hfind, hp]
  · have hp' : u.is_pro = false := Bool.eq_false_iff.mpr hp
    simp [get_remaining_requests, get_or_create_user, hfind, hp']

/-- Witness for C9 (amended): a stored free user with a stale counter 3
is reported with used-today 0 and remaining 5, and the table is
untouched. -/
theorem C9_status_readonly_witness :
    (get_remaining_requests (Settings.mk [] 5) [User.mk 7 false 3 0] 5 7).2 =
      [User.mk 7 false 3 0] ∧
    (get_remaining_requests (Settings.mk [] 5) [User.mk 7 false 3 0] 5 7).1 =
      (if (User.mk 7 false 3 0).is_pro then (true, -1)
       else (false,
         max (((Settings.mk [] 5).DAILY_FREE_LIMIT : Int) -
           ((if 5 ≤ (User.mk 7 false 3 0).last_request_date then
               (User.mk 7 false 3 0).requests_today else 0 : Nat) : Int)) 0)) :=
  C9_status_readonly (Settings.mk [] 5) [User.mk 7 false 3 0] 5 7
    (User.mk 7 false 3 0) (by decide)

/-! ### List lemmas for the Context Window -/

theorem entriesOfPairs_append (q r : List (String × String)) :
    entriesOfPairs (q ++ r) = entriesOfPairs q ++ entriesOfPairs r := by
  induction q with
  | nil => rfl
  | cons e rest ih => simp [entriesOfPairs, ih]

theorem entriesOfPairs_length (q : List (String × String)) :
    (entriesOfPairs q).length = 2 * q.length := by
  induction q with
  | nil => rfl
  | cons e rest ih =>
      simp [entriesOfPairs, ih]
      omega

theorem entriesOfPairs_drop (n : Nat) (q : List (String × String)) :
    entriesOfPairs (q.drop n) = (entriesOfPairs q).drop (2 * n) := by
  induction n generalizing q with
  | zero => simp
  | succ m ih =>
      cases q with
      | nil => simp [entriesOfPairs]
      | cons e rest =>
          have e2 : 2 * (m + 1) = 2 * m + 1 + 1 := by omega
          simp only [List.drop_succ_cons, ih, entriesOfPairs, e2,
            List.drop_succ_cons]

theorem rolePaired_entriesOfPairs (q : List (String × String)) :
    rolePaired (entriesOfPairs q) = true := by
  induction q with
  | nil => rfl
  | cons e rest ih => simp [entriesOfPairs, rolePaired, ih]

theorem lastK_of_le (k : Nat) (l : List α) (h : l.length ≤ k) :
    lastK k l = l := by
  simp [lastK, Nat.sub_eq_zero_of_le h]

theorem lastK_length (k : Nat) (l : List α) :
    (lastK k l).length = min k l.length := by
  simp [lastK]
  omega

theorem lastK_lastK_append (k : Nat) (a b : List α) :
    lastK k (lastK k a ++ b) = lastK k (a ++ b) := by
  rcases le_or_lt a.length k with h | h
  · rw [lastK_of_le k a h]
  · unfold lastK
    simp only [List.length_append, List.length_drop]
    rw [List.drop_append_eq_append_drop, List.drop_append_eq_append_drop,
      List.drop_drop]
    congr 1
    · congr 1
      omega
    · congr 1
      simp only [List.length_drop]
      omega

/-- Closed form of one `add_to_context` call at the context-list level. -/
theorem add_to_context_get_context (p : ThreadsProfile) (a b : String) :
    (p.add_to_context a b).get_context =
      (if (p.get_context ++ [({ role := "user", content := a } : CtxEntry),
            { role := "assistant", content := b }]).length > 20 then
        (p.get_context ++ [({ role := "user", content := a } : CtxEntry),
            { role := "assistant", content := b }]).drop
          ((p.get_context ++ [({ role := "user", content := a } : CtxEntry),
            { role := "assistant", content := b }]).length - 20)
      else
        p.get_context ++ [({ role := "user", content := a } : CtxEntry),
            { role := "assistant", content := b }]) := rfl

theorem add_to_context_pairs (p : ThreadsProfile) (q : List (String × String))
    (h : p.get_context = entriesOfPairs q) (hq : q.length ≤ 10)
    (a b : String) :
    (p.add_to_context a b).get_context =
      entriesOfPairs (lastK 10 (q ++ [(a, b)])) := by
  have e1 : p.get_context ++ [({ role := "user", content := a } : CtxEntry),
      { role := "assistant", content := b }] = entriesOfPairs (q ++ [(a, b)]) := by
    rw [h, entriesOfPairs_append]
    rfl
  rw [add_to_context_get_context, e1, entriesOfPairs_length]
  simp only [List.length_append, List.length_singleton]
  rcases Nat.eq_or_lt_of_le hq with heq | hlt
  · rw [if_pos (by omega)]
    have e2 : 2 * (q.length + 1) - 20 = 2 * 1 := by omega
    rw [e2, ← entriesOfPairs_drop]
    congr 1
    unfold lastK
    simp only [List.length_append, List.length_singleton]
    congr 1
    omega
  · rw [if_neg (by omega), lastK_of_le]
    simp only [List.length_append, List.length_singleton]
    omega

/-- Closed form of a whole `appendExchanges` run: the read-back context
is exactly the last 10 appended pairs (all of them when fewer),
flattened in order. -/
theorem appendExchanges_get_context :
    ∀ (ps : List (String × String)) (p : ThreadsProfile)
      (q : List (String × String)),
      p.get_context = entriesOfPairs q → q.length ≤ 10 →
      (appendExchanges p ps).get_context =
        entriesOfPairs (lastK 10 (q ++ ps)) := by
  intro ps
  induction ps with
  | nil =>
      intro p q h hq
      rw [appendExchanges, List.append_nil, lastK_of_le 10 q hq]
      exact h
  | cons e rest ih =>
      intro p q h hq
      have h1 := add_to_context_pairs p q h hq e.1 e.2
      have hq1 : (lastK 10 (q ++ [e])).length ≤ 10 := by
        rw [lastK_length]
        omega
      have h2 := ih (p.add_to_context e.1 e.2) (lastK 10 (q ++ [e])) h1 hq1
      rw [appendExchanges, h2, lastK_lastK_append, List.append_assoc]
      rfl

/-! ### Claims on the Context Window and the pipeline -/

/-- C3: appending more than `MAX_CONTEXT_MESSAGES` exchanges to an
empty context yields a read-back of exactly
`2 * MAX_CONTEXT_MESSAGES = 20` entries: the last
`MAX_CONTEXT_MESSAGES` appended pairs, flattened user-then-assistant in
their original relative order, earlier pairs discarded from the
front. -/
theorem C3_context_bound (name style : String) (ps : List (String × String))
    (h : ThreadsProfile.MAX_CONTEXT_MESSAGES < ps.length) :
    (appendExchanges (emptyProfile name style) ps).get_context =
      entriesOfPairs
        (ps.drop (ps.length - ThreadsProfile.MAX_CONTEXT_MESSAGES)) ∧
    ((appendExchanges (emptyProfile name style) ps).get_context).length =
      2 * ThreadsProfile.MAX_CONTEXT_MESSAGES := by
  have hm := appendExchanges_get_context ps (emptyProfile name style) [] rfl
    (by simp)
  rw [List.nil_append] at hm
  have hmax : ThreadsProfile.MAX_CONTEXT_MESSAGES = 10 := rfl
  constructor
  · rw [hm]
    rfl
  · rw [hm, entriesOfPairs_length, lastK_length]
    rw [hmax] at h ⊢
    omega

/-- Witness for C3: 12 concrete numbered exchanges; the read-back keeps
pairs 3..12 only, 20 entries. -/
theorem C3_context_bound_witness :
    (appendExchanges (emptyProfile "travel" "friendly")
        ((List.range 12).map (fun i => (toString i, toString i)))).get_context =
      entriesOfPairs
        (((List.range 12).map (fun i => (toString i, toString i))).drop
          (((List.range 12).map (fun i => (toString i, toString i))).length -
            ThreadsProfile.MAX_CONTEXT_MESSAGES)) ∧
    ((appendExchanges (emptyProfile "travel" "friendly")
        ((List.range 12).map
          (fun i => (toString i, toString i)))).get_context).length =
      2 * ThreadsProfile.MAX_CONTEXT_MESSAGES :=
  C3_context_bound "travel" "friendly"
    ((List.range 12).map (fun i => (toString i, toString i))) (by decide)

/-- C4: after any sequence of appends to an empty context, the
read-back has even length and strictly alternates a user entry then an
assistant entry, starting with user. -/
theorem C4_pairing_invariant (name style : String)
    (ps : List (String × String)) :
    ((appendExchanges (emptyProfile name style) ps).get_context).length % 2
        = 0 ∧
    rolePaired ((appendExchanges (emptyProfile name style) ps).get_context)
        = true := by
  have hm := appendExchanges_get_context ps (emptyProfile name style) [] rfl
    (by simp)
  rw [List.nil_append] at hm
  rw [hm]
  refine ⟨?_, rolePaired_entriesOfPairs _⟩
  rw [entriesOfPairs_length]
  omega

/-- C7: `get_context` is total over every stored blob — the abstract
`StoredCtx` covers well-formed serialized histories, the empty string,
and non-JSON-parseable text — returning the stored entry list in the
well-formed case and the empty sequence (not an exception) on empty or
malformed data. -/
theorem C7_get_context_total (p : ThreadsProfile) :
    (p.context_json = StoredCtx.malformed → p.get_context = []) ∧
    (p.context_json = StoredCtx.emptyText → p.get_context = []) ∧
    (∀ l, p.context_json = StoredCtx.json_of l → p.get_context = l) := by
  refine ⟨?_, ?_, ?_⟩
  · intro h
    simp [ThreadsProfile.get_context, h]
  · intro h
    simp [ThreadsProfile.get_context, h]
  · intro l h
    simp [ThreadsProfile.get_context, h]

/-- Witness for C7 at concrete profiles: malformed and empty blobs read
back as `[]`, a well-formed blob reads back as its entries. -/
theorem C7_get_context_total_witness :
    (ThreadsProfile.mk "n" "s" StoredCtx.malformed).get_context = [] ∧
    (ThreadsProfile.mk "n" "s" StoredCtx.emptyText).get_context = [] ∧
    (ThreadsProfile.mk "n" "s"
        (StoredCtx.json_of [CtxEntry.mk "user" "hi"])).get_context =
      [CtxEntry.mk "user" "hi"] :=
  ⟨(C7_get_context_total (ThreadsProfile.mk "n" "s" StoredCtx.malformed)).1
      rfl,
   (C7_get_context_total (ThreadsProfile.mk "n" "s" StoredCtx.emptyText)).2.1
      rfl,
   (C7_get_context_total (ThreadsProfile.mk "n" "s"
      (StoredCtx.json_of [CtxEntry.mk "user" "hi"]))).2.2
      [CtxEntry.mk "user" "hi"] rfl⟩

/-- C8: when the topic is non-empty, the quota check admits, and the
model call raises, `handle_text` ends with the active profile's stored
context exactly as it was (no partial append) and the user row exactly
as the quota check left it — which kept the increment: the post-check
counter is the old counter plus one (or 1 after a rollover reset). -/
theorem C8_model_failure_state (s : Settings) (today : Nat)
    (stripMd : String → String) (u : User) (p : ThreadsProfile)
    (rawText : String) (htopic : ¬ pyStrip rawText = "")
    (hallowed : (check_and_track_usage s today u).1 = true) :
    handle_text s today stripMd u (some p) rawText (Except.error ()) =
      ((check_and_track_usage s today u).2, some p,
        HandleOutcome.generationFailed) ∧
    ((check_and_track_usage s today u).2.requests_today
        = u.requests_today + 1 ∨
      (check_and_track_usage s today u).2.requests_today = 1) := by
  refine ⟨?_, admitted_counter_increment s today u hallowed⟩
  simp [handle_text, htopic, hallowed]

/-- Witness for C8: a concrete admitted request whose model call fails;
the context is untouched and the counter went 0 → 1. -/
theorem C8_model_failure_state_witness :
    handle_text (Settings.mk [] 5) 0 id (User.mk 1 false 0 0)
        (some (emptyProfile "n" "s")) " hi " (Except.error ()) =
      ((check_and_track_usage (Settings.mk [] 5) 0 (User.mk 1 false 0 0)).2,
        some (emptyProfile "n" "s"), HandleOutcome.generationFailed) ∧
    ((check_and_track_usage (Settings.mk [] 5) 0
          (User.mk 1 false 0 0)).2.requests_today =
        (User.mk 1 false 0 0).requests_today + 1 ∨
      (check_and_track_usage (Settings.mk [] 5) 0
          (User.mk 1 false 0 0)).2.requests_today = 1) :=
  C8_model_failure_state (Settings.mk [] 5) 0 id (User.mk 1 false 0 0)
    (emptyProfile "n" "s") " hi " (by decide) (by decide)

/-- C10: `clear_context` followed by `get_context` yields the empty
sequence whatever the prior stored history was, and clearing twice
leaves the profile in exactly the state of clearing once. -/
theorem C10_clear_idempotent (p : ThreadsProfile) :
    (p.clear_context).get_context = [] ∧
    (p.clear_context).clear_context = p.clear_context :=
  ⟨rfl, rfl⟩

end Threads
